import Mathlib

/-!
Shallow embedding of the AD9910 DDS waveform-register encoding and timed-commit
modules of the jax laboratory-control framework:

  * src/base/experiments/ad9910_ram.py     (RAMType, RAMProfile, RAMProfileMap)
  * src/base/experiments/ad9910_drg.py     (DRGType, DRG)
  * src/base/experiments/ad9910_manager.py (AD9910Manager and its DDSConfig)

Modelling conventions.

  * Python floats that hold physical quantities (Hz, turns, unit amplitude,
    seconds) are modelled as rationals; the fixed-point and rounding steps the
    code performs on them are modelled exactly.
  * numpy unsigned 32-bit scalars are modelled as integers in [0, 2^32)
    together with explicit wraparound (toU32) at the operations where numpy
    wraps; numpy value-based type promotion (uint32 combined with a negative
    Python int promotes to int64, which does not wrap in the ranges reached
    here) is modelled by exact integer arithmetic on the promoted paths.
  * astype casts between uint32 and int32 are direct bit reinterpretations,
    modelled by toU32 and toInt32.
  * ARTIQ coredevice conversion helpers (frequency_to_ftw, turns_to_pow,
    amplitude_to_asf and the array RAM converters) are external collaborators;
    they appear as abstract function fields of the AD9910 interface record.
  * Python exceptions raised by the constructors are modelled with Except;
    the error names follow the spec's taxonomy (RangeError, CapacityError,
    ConfigError) and the concrete raise sites of the source.
  * The one place where Python list mutation matters (RAMProfile.__init__
    copies and then reverses the data list) is modelled with an explicit
    store of list cells, so that the no-mutation frame property is statable.
  * The ARTIQ timeline (now_mu, at_mu, and SPI-backed cpld.set_profile) is
    modelled as a cursor plus a log of scheduled SPI events; set_profile
    emits one event at the current cursor and advances the cursor by the
    transaction's duration.
-/

/-! ## Machine-word helpers (numpy uint32 / int32 semantics) -/

/-- Value of a numpy uint32 holding the bit pattern of the integer z:
reduction modulo 2^32 into [0, 2^32). -/
def toU32 (z : ℤ) : ℤ := z % 4294967296

/-- Value of a numpy int32 holding the bit pattern of the integer z:
reduction modulo 2^32 into [-2^31, 2^31). Models astype between int32
and uint32, a direct bit reinterpretation. -/
def toInt32 (z : ℤ) : ℤ := (z + 2147483648) % 4294967296 - 2147483648

/-- Python int() applied to a rational: truncation toward zero. -/
def pyInt (q : ℚ) : ℤ := if q < 0 then ⌈q⌉ else ⌊q⌋

/-- Python 3 round() applied to a rational: round half to even. -/
def pyRound (q : ℚ) : ℤ :=
  if q - ⌊q⌋ < 1/2 then ⌊q⌋
  else if 1/2 < q - ⌊q⌋ then ⌊q⌋ + 1
  else if ⌊q⌋ % 2 = 0 then ⌊q⌋ else ⌊q⌋ + 1

/-! ## The external ARTIQ AD9910 device interface

The real-time kernel runtime and the ARTIQ coredevice driver are external
collaborators.  An AD9910 instance supplies the system clock rate, the identity
of its controlling CPLD, and the unit-conversion helpers the jax modules call.
The per-entry fields named with a `_to_ram1` suffix stand for the elementwise
action of ARTIQ's array converters frequency_to_ram, turns_to_ram,
amplitude_to_ram and turns_amplitude_to_ram. All conversion results are int32
machine words, hence integer-valued. -/

structure AD9910 where
  sysclk : ℚ
  cpld : ℕ
  frequency_to_ftw : ℚ → ℤ
  turns_to_pow : ℚ → ℤ
  amplitude_to_asf : ℚ → ℤ
  frequency_to_ram1 : ℚ → ℤ
  turns_to_ram1 : ℚ → ℤ
  amplitude_to_ram1 : ℚ → ℤ
  turns_amplitude_to_ram1 : ℚ → ℚ → ℤ

/-! ## ad9910_ram.py : RAMType and RAMProfile -/

/-- The type of data in the RAM (ad9910_ram.py, class RAMType). -/
inductive RAMType
  | FREQ
  | PHASE
  | AMP
  | POLAR
deriving DecidableEq, Repr

/-- ARTIQ's RAM destination register constants (artiq.coredevice.ad9910). -/
def RAM_DEST_FTW : ℕ := 0

def RAM_DEST_POW : ℕ := 1

def RAM_DEST_ASF : ℕ := 2

def RAM_DEST_POWASF : ℕ := 3

/-- One element of the data list passed to RAMProfile.__init__: a float for
FREQ/PHASE/AMP profiles, or a (phase, amplitude) 2-tuple for POLAR profiles. -/
inductive Sample
  | scalar (v : ℚ)
  | pair (phase amplitude : ℚ)
deriving DecidableEq

/-- Failures of RAMProfile construction. capacityError is the length assert
(the spec's CapacityError); typeError models the Python TypeError that the
conversion helpers raise when an element has the wrong shape for the
requested RAM type. -/
inductive RAMBuildError
  | capacityError
  | typeError
deriving DecidableEq

/-- The attributes RAMProfile.__init__ stores on the object.  Note that the
constructor never stores the ram_type argument itself: there is deliberately
no ram_type field here, mirroring ad9910_ram.py lines 120-179, where only
ftw, pow, asf, dest, start_addr, end_addr, osk_enable, ram, step and
ram_mode are assigned. -/
structure RAMProfile where
  ftw : ℤ
  pow : ℤ
  asf : ℤ
  dest : ℕ
  start_addr : ℤ
  end_addr : ℤ
  osk_enable : ℕ
  ram : List ℤ
  step : ℤ
  ram_mode : ℕ
deriving DecidableEq

/-- Elementwise action of the ARTIQ RAM data converter selected by the RAM
type; none when the element's shape does not fit the converter (the Python
call would raise a TypeError). -/
def encode1 (dds : AD9910) : RAMType → Sample → Option ℤ
  | .FREQ, .scalar v => some (dds.frequency_to_ram1 v)
  | .PHASE, .scalar v => some (dds.turns_to_ram1 v)
  | .AMP, .scalar v => some (dds.amplitude_to_ram1 v)
  | .POLAR, .pair p a => some (dds.turns_amplitude_to_ram1 p a)
  | _, _ => none

/-- Encode a whole (already reversed) data list into RAM words. -/
def ramEncode (dds : AD9910) (rt : RAMType) : List Sample → Option (List ℤ)
  | [] => some []
  | s :: rest =>
    match encode1 dds rt s, ramEncode dds rt rest with
    | some w, some ws => some (w :: ws)
    | _, _ => none

/-- A store of Python list objects: the data argument is passed by reference,
so the caller's list is one cell of this store and data.copy() allocates a
fresh cell. -/
abbrev ListStore := List (List Sample)

/-- RAMProfile.__init__ (ad9910_ram.py lines 120-179).  The store is threaded
through because the constructor manipulates list objects:

  1. assert len(data) <= RAM_SIZE (1024) - modelled as capacityError;
  2. data = data.copy() - allocate a fresh cell holding the same elements;
  3. data.reverse() - reverse that fresh cell in place;
  4. encode the reversed data per ram_type, set dest and the base FTW/POW/ASF
     registers (defaults 0, 0, 0x3fff, each branch overwriting the ones it
     computes);
  5. start_addr = 0, end_addr = len(ram) - 1;
  6. osk_enable = 0 for AMP/POLAR, 1 otherwise;
  7. step = int(ramp_interval * sysclk / 4).

Returns the store after the constructor ran together with the constructed
profile or the failure. -/
def RAMProfile.init (dds : AD9910) (store : ListStore) (dataRef : ℕ)
    (ramp_interval : ℚ) (ram_type : RAMType) (ram_mode : ℕ)
    (base_frequency base_phase base_amplitude : ℚ) :
    ListStore × Except RAMBuildError RAMProfile :=
  let data0 := store.getD dataRef []
  if data0.length > 1024 then (store, .error .capacityError)
  else
    let store1 := (store ++ [data0]).set store.length data0.reverse
    let data := data0.reverse
    match ramEncode dds ram_type data with
    | none => (store1, .error .typeError)
    | some ram =>
      let regs :=
        match ram_type with
        | .FREQ => (RAM_DEST_FTW, (0 : ℤ), dds.turns_to_pow base_phase,
            dds.amplitude_to_asf base_amplitude)
        | .PHASE => (RAM_DEST_POW, dds.frequency_to_ftw base_frequency, (0 : ℤ),
            dds.amplitude_to_asf base_amplitude)
        | .AMP => (RAM_DEST_ASF, dds.frequency_to_ftw base_frequency,
            dds.turns_to_pow base_phase, (0x3fff : ℤ))
        | .POLAR => (RAM_DEST_POWASF, dds.frequency_to_ftw base_frequency, (0 : ℤ),
            (0x3fff : ℤ))
      (store1, .ok {
        ftw := regs.2.1
        pow := regs.2.2.1
        asf := regs.2.2.2
        dest := regs.1
        start_addr := 0
        end_addr := (ram.length : ℤ) - 1
        osk_enable := if ram_type = .AMP ∨ ram_type = .POLAR then 0 else 1
        ram := ram
        step := pyInt (ramp_interval * dds.sysclk / 4)
        ram_mode := ram_mode })

/-! ## ad9910_drg.py : DRGType and DRG -/

/-- The type of digital ramp (ad9910_drg.py, class DRGType). -/
inductive DRGType
  | FREQ
  | PHASE
  | AMP
deriving DecidableEq, Repr

/-- Enum value of a DRGType, used as the DRG data destination. -/
def DRGType.value : DRGType → ℕ
  | .FREQ => 0
  | .PHASE => 1
  | .AMP => 2

/-- The step_gap argument of DRG.__init__: a literal physical delta, or the
string "fine" selecting the finest representable step. -/
inductive StepGap
  | fine
  | val (g : ℚ)

/-- Failures of DRG construction, one per raise site of DRG.__init__ (all are
ValueError in the source; the spec files them under ConfigError/RangeError):
doubleSpec - num_of_steps and step_gap both or neither given;
phaseRange - "Phase parameter does not wrap around in DRG";
ampRange - "Amplitude parameter exceeds DRG limits";
limitOrder - "Upper limit of DRG must be higher than the lower limit of DRG";
dwellMismatch - "Inconsistent DRG dwell high behavior";
startLow - "start value too low". -/
inductive DRGError
  | doubleSpec
  | phaseRange
  | ampRange
  | limitOrder
  | dwellMismatch
  | startLow
deriving DecidableEq

/-- The attributes DRG.__init__ stores: destination, rate, and the three
int32-reinterpreted register words high, step, low, plus the ramp type. -/
structure DRG where
  dest : ℕ
  rate : ℤ
  high : ℤ
  step : ℤ
  low : ℤ
  drg_type : DRGType
deriving DecidableEq

/-- The local helper _turns_to_drg_args of DRG.__init__ (lines 112-116):
pow = round(turns * 2^32); raise if pow is outside [0, 2^32 - 1], otherwise
the unsigned 32-bit word pow. -/
def turns_to_drg_args (turns : ℚ) : Except DRGError ℤ :=
  let p := pyRound (turns * 4294967296)
  if p < 0 ∨ p > 4294967295 then .error .phaseRange else .ok p

/-- The local helper _amplitude_to_drg_regs of DRG.__init__ (lines 132-137):
raise unless amplitude is in [0, 1]; otherwise np.uint32(amplitude *
0xFFFFFFFF), truncation of the nonnegative product. -/
def amplitude_to_drg_regs (amplitude : ℚ) : Except DRGError ℤ :=
  if amplitude < 0 ∨ amplitude > 1 then .error .ampRange
  else .ok ⌊amplitude * 4294967295⌋

/-- Encoding of a start or end value into its uint32 machine word, per ramp
type (the per-branch start_mu / self.high assignments of DRG.__init__).
frequency_to_ftw returns an int32; astype('uint32') reinterprets it. -/
def drgEncode (dds : AD9910) : DRGType → ℚ → Except DRGError ℤ
  | .FREQ, v => .ok (toU32 (dds.frequency_to_ftw v))
  | .PHASE, v => turns_to_drg_args v
  | .AMP, v => amplitude_to_drg_regs v

/-- The per-branch self.step assignment when step_gap is given: the finest
step constant (1, 1 << 16, 1 << 18 for FREQ, PHASE, AMP), or the encoded
literal gap. -/
def drgStepGap (dds : AD9910) : DRGType → StepGap → Except DRGError ℤ
  | .FREQ, .fine => .ok 1
  | .FREQ, .val g => .ok (toU32 (dds.frequency_to_ftw g))
  | .PHASE, .fine => .ok 65536
  | .PHASE, .val g =>
    match turns_to_drg_args g with
    | .error e => .error e
    | .ok w => .ok (toU32 w)
  | .AMP, .fine => .ok 262144
  | .AMP, .val g =>
    match amplitude_to_drg_regs g with
    | .error e => .error e
    | .ok w => .ok (toU32 w)

/-- Optional step_gap handling preceding the limit check. -/
def drgStepGapOpt (dds : AD9910) (drg_type : DRGType) :
    Option StepGap → Except DRGError (Option ℤ)
  | none => .ok none
  | some sg =>
    match drgStepGap dds drg_type sg with
    | .error e => .error e
    | .ok w => .ok (some w)

/-- DRG.__init__ (ad9910_drg.py lines 88-173).

numpy dtype bookkeeping for self.step, following value-based promotion:
  * step_gap paths and num_of_steps >= 2 keep step a uint32;
  * num_of_steps = 1 divides the uint32 span by zero, which numpy turns into
    the uint32 value 0 (with only a RuntimeWarning);
  * num_of_steps <= 0 makes num_of_steps - 1 a negative Python int, promoting
    the floor division to int64, which is exact in the ranges reached here.

The dwell-high verification (line 160) compares high + step against 2^32:
when step is a uint32 the numpy addition high + step wraps modulo 2^32
before the comparison; when step is an int64 the addition is exact. -/
def DRG.init (dds : AD9910) (start finish ramp_interval : ℚ) (drg_type : DRGType)
    (num_of_steps : Option ℤ) (step_gap : Option StepGap) (dwell_high : Bool) :
    Except DRGError DRG :=
  if num_of_steps.isSome = step_gap.isSome then .error .doubleSpec
  else
    let rate := pyInt (ramp_interval * dds.sysclk / 4)
    match drgEncode dds drg_type start with
    | .error e => .error e
    | .ok start_mu =>
      match drgEncode dds drg_type finish with
      | .error e => .error e
      | .ok high =>
        match drgStepGapOpt dds drg_type step_gap with
        | .error e => .error e
        | .ok gapStep =>
          if high ≤ start_mu then .error .limitOrder
          else
            let stepD : ℤ × Bool :=
              match num_of_steps with
              | some n =>
                if n = 1 then (0, true)
                else if 1 < n then ((high - start_mu) / (n - 1), true)
                else (Int.fdiv (high - start_mu) (n - 1), false)
              | none => (gapStep.getD 0, true)
            let step := stepD.1
            let dwellSum := if stepD.2 then toU32 (high + step) else high + step
            if ¬ (dwell_high = true ↔ dwellSum < 4294967296) then .error .dwellMismatch
            else if start_mu < step then .error .startLow
            else
              .ok { dest := drg_type.value
                    rate := rate
                    high := toInt32 high
                    step := toInt32 step
                    low := toInt32 (start_mu - step)
                    drg_type := drg_type }

/-! ## ad9910_manager.py : AD9910Manager.DDSConfig and AD9910Manager.append -/

/-- One of the three parameter-source arguments of AD9910Manager.append: a
plain float constant, a DRG object, or a RAMProfile object. -/
inductive Src
  | lit (v : ℚ)
  | drg (d : DRG)
  | ram (r : RAMProfile)

/-- The three parameter slots of a channel, in the order append iterates
them (zip(sources, src_names)). -/
inductive SlotName
  | frequency
  | phase
  | amplitude
deriving DecidableEq

/-- Failures of AD9910Manager.append and DDSConfig.__init__.  attributeError
is the Python AttributeError raised by reading src.ram_type on a RAMProfile
(which stores no such attribute); the others are the ValueError raise sites
(the spec's ConfigError). -/
inductive AppendError
  | invalidDRGDest
  | invalidRAMDest
  | attributeError
  | multipleDRG
  | multipleRAM
  | polarOnly
  | distinctPolar
deriving DecidableEq

/-- drg_types_dict of append: the DRG types acceptable in each slot. -/
def drg_types_dict : SlotName → List DRGType
  | .frequency => [.FREQ]
  | .phase => [.PHASE]
  | .amplitude => [.AMP]

/-- Per-slot validation loop body of append (ad9910_manager.py lines 107-111).
For a DRG source the drg_type is checked against the slot.  For a RAMProfile
source the code evaluates src.ram_type, but RAMProfile.__init__ never stores
a ram_type attribute (see structure RAMProfile), so the read raises
AttributeError before the membership test happens. -/
def validate_src (slot : SlotName) : Src → Except AppendError Unit
  | .drg d => if d.drg_type ∈ drg_types_dict slot then .ok () else .error .invalidDRGDest
  | .ram _ => .error .attributeError
  | .lit _ => .ok ()

/-- Whether a source is a DRG object (type(src) == DRG). -/
def isDrgSrc : Src → Bool
  | .drg _ => true
  | _ => false

/-- Whether a source is a RAMProfile object (type(src) == RAMProfile). -/
def isRamSrc : Src → Bool
  | .ram _ => true
  | _ => false

/-- The literal value of a slot, or the DDSConfig default for that slot when
the slot holds a DRG or RAMProfile (arg_dict only gets the name for plain
constants; DDSConfig.__init__ defaults are frequency=0.0, phase=0.0,
amplitude=1.0). -/
def litOrDefault (dflt : ℚ) : Src → ℚ
  | .lit v => v
  | _ => dflt

/-- The DRG stored into arg_dict, if any (at most one survives validation). -/
def drgOf : Src → Option DRG
  | .drg d => some d
  | _ => none

/-- The RAMProfile stored into arg_dict, if any. -/
def ramOf : Src → Option RAMProfile
  | .ram r => some r
  | _ => none

/-- First present option among the three slots (arg_dict assignment order;
at most one distinct object exists once validation passed). -/
def firstSome {α : Type} (a b c : Option α) : Option α :=
  match a with
  | some x => some x
  | none => match b with
    | some x => some x
    | none => c

/-- The attributes AD9910Manager.DDSConfig.__init__ stores. -/
structure DDSConfig where
  ftw : ℤ
  pow_ : ℤ
  asf : ℤ
  ram_destination : ℕ
  ram_enable : ℕ
  drg_destination : ℕ
  drg_enable : ℕ
  osk_enable : ℕ
deriving DecidableEq

/-- AD9910Manager.DDSConfig.__init__ (ad9910_manager.py lines 37-66).
Base registers come from the literal slot values (or their defaults); RAM
and DRG presence set the enable/destination fields.  The OSK logic is:
osk_enable = 1; if RAM is absent, 0; otherwise the code reads
ram_profile.ram_type (line 62) - an attribute RAMProfile objects do not
have, so that path raises AttributeError (making lines 62-66 dead code
whenever an actual RAMProfile object is passed). -/
def DDSConfig.init (dds : AD9910) (drg : Option DRG) (ram_profile : Option RAMProfile)
    (frequency phase amplitude : ℚ) : Except AppendError DDSConfig :=
  let ftw := dds.frequency_to_ftw frequency
  let pw := dds.turns_to_pow phase
  let asf := dds.amplitude_to_asf amplitude
  let ramRegs : ℕ × ℕ :=
    match ram_profile with
    | some rp => (rp.dest, 1)
    | none => (0, 0)
  let drgRegs : ℕ × ℕ :=
    match drg with
    | some d => (d.dest, 1)
    | none => (0, 0)
  match ram_profile with
  | none =>
    .ok { ftw := ftw, pow_ := pw, asf := asf
          ram_destination := ramRegs.1, ram_enable := ramRegs.2
          drg_destination := drgRegs.1, drg_enable := drgRegs.2
          osk_enable := 0 }
  | some _ => .error .attributeError

/-- AD9910Manager.append (ad9910_manager.py lines 68-166), up to and
including the DDSConfig construction.  The subsequent bookkeeping (pushes
into the DRG map, the RAM profile map, the configuration map and the CPLD
list) only runs after the returned configuration exists and is not part of
any verified claim, so append is modelled as returning the configuration.

Order of effects mirrored from the source: the per-slot validation loop in
slot order (each slot checking its DRG type first, then touching
src.ram_type for RAMProfile sources), the multiplicity checks on the DRG
and RAMProfile counts, the POLAR duplication checks (which again read
ram_type), and finally DDSConfig.__init__. -/
def AD9910Manager.append (dds : AD9910)
    (frequency_src phase_src amplitude_src : Src) : Except AppendError DDSConfig :=
  match validate_src .frequency frequency_src with
  | .error e => .error e
  | .ok _ =>
  match validate_src .phase phase_src with
  | .error e => .error e
  | .ok _ =>
  match validate_src .amplitude amplitude_src with
  | .error e => .error e
  | .ok _ =>
  let sources := [frequency_src, phase_src, amplitude_src]
  let num_of_drg := (sources.filter isDrgSrc).length
  let num_of_ram := (sources.filter isRamSrc).length
  if num_of_drg > 1 then .error .multipleDRG
  else if num_of_ram > 1 then
    -- Unreachable: the validation loop above already raised AttributeError
    -- for every RAMProfile source.  Kept to mirror lines 122-134, where the
    -- POLAR checks on lines 130-134 again read ram_type.
    if num_of_ram > 2 ∨ (num_of_ram ≥ 2 ∧ isRamSrc frequency_src) then .error .multipleRAM
    else .error .attributeError
  else
    DDSConfig.init dds
      (firstSome (drgOf frequency_src) (drgOf phase_src) (drgOf amplitude_src))
      (firstSome (ramOf frequency_src) (ramOf phase_src) (ramOf amplitude_src))
      (litOrDefault 0 frequency_src) (litOrDefault 0 phase_src)
      (litOrDefault 1 amplitude_src)

/-! ## The ARTIQ timeline and the commit protocol

now_mu() reads the current timeline cursor; at_mu(t) sets the cursor; a
cpld.set_profile call issues an SPI transaction whose RTIO events land at the
current cursor, the transaction advancing the timeline by its own duration
(which may depend on the chip).  The commit methods of AD9910Manager and
RAMProfileMap are loops over the registered CPLDs. -/

/-- One scheduled profile-switch command: which CPLD, at which timestamp,
to which profile. -/
structure SPIEvent where
  cpld : ℕ
  time : ℤ
  profile : ℕ
deriving DecidableEq

/-- The timeline state: the RTIO timestamp cursor and the log of scheduled
profile-switch commands. -/
structure Timeline where
  cursor : ℤ
  events : List SPIEvent
deriving DecidableEq

/-- cpld.set_profile(profile): schedule the SPI transaction at the current
cursor and advance the timeline by the transaction's duration. -/
def set_profile (dur : ℕ → ℤ) (tl : Timeline) (cpld profile : ℕ) : Timeline :=
  { cursor := tl.cursor + dur cpld
    events := tl.events ++ [{ cpld := cpld, time := tl.cursor, profile := profile }] }

/-- AD9910Manager.commit_enable (ad9910_manager.py lines 220-234):
now = now_mu(); for each cpld: at_mu(now); cpld.set_profile(0). -/
def AD9910Manager.commit_enable (dur : ℕ → ℤ) (cplds : List ℕ) (tl : Timeline) :
    Timeline :=
  let now := tl.cursor
  cplds.foldl (fun t c => set_profile dur { t with cursor := now } c 0) tl

/-- AD9910Manager.commit_disable (ad9910_manager.py lines 250-264):
now = now_mu(); for each cpld: at_mu(now); cpld.set_profile(7). -/
def AD9910Manager.commit_disable (dur : ℕ → ℤ) (cplds : List ℕ) (tl : Timeline) :
    Timeline :=
  let now := tl.cursor
  cplds.foldl (fun t c => set_profile dur { t with cursor := now } c 7) tl

/-- RAMProfileMap.commit_enable (ad9910_ram.py lines 287-299): the same loop
as the manager's, switching to profile 0. -/
def RAMProfileMap.commit_enable (dur : ℕ → ℤ) (cplds : List ℕ) (tl : Timeline) :
    Timeline :=
  let now := tl.cursor
  cplds.foldl (fun t c => set_profile dur { t with cursor := now } c 0) tl

/-- RAMProfileMap.commit_disable (ad9910_ram.py lines 314-328): the same loop,
switching back to the single-tone profile 7. -/
def RAMProfileMap.commit_disable (dur : ℕ → ℤ) (cplds : List ℕ) (tl : Timeline) :
    Timeline :=
  let now := tl.cursor
  cplds.foldl (fun t c => set_profile dur { t with cursor := now } c 7) tl

/-! ## Derived predicates and concrete fixtures used by the theorems -/

/-- Whether a data element has the shape the converter of the given RAM type
consumes: a 2-tuple for POLAR, a plain float otherwise. -/
def shapeOk (rt : RAMType) (s : Sample) : Bool :=
  match rt, s with
  | .POLAR, .pair _ _ => true
  | .POLAR, .scalar _ => false
  | _, .scalar _ => true
  | _, .pair _ _ => false

/-- Total elementwise encoding (meaningful on shapeOk elements). -/
def encodeVal (dds : AD9910) (rt : RAMType) (s : Sample) : ℤ :=
  (encode1 dds rt s).getD 0

/-- Whether a source is a DRG whose drg_type fails the slot's validation. -/
def drgMismatch (slot : SlotName) : Src → Bool
  | .drg d => decide (d.drg_type ∉ drg_types_dict slot)
  | _ => false

/-- Whether append's validation loop meets a mismatched DRG in a slot that
comes before the first RAMProfile slot (slot order frequency, phase,
amplitude; the amplitude slot never precedes a RAMProfile). -/
def mismatchedDRGBeforeRAM (frequency_src phase_src : Src) : Bool :=
  if isRamSrc frequency_src then false
  else if drgMismatch .frequency frequency_src then true
  else if isRamSrc phase_src then false
  else if drgMismatch .phase phase_src then true
  else false

/-- A concrete AD9910 instance for closed evaluations: unit system clock and
trivial external converters (the converters are irrelevant to the AMP-typed
DRG paths and to the structural manager checks exercised with it). -/
def dds0 : AD9910 where
  sysclk := 1
  cpld := 0
  frequency_to_ftw := fun _ => 0
  turns_to_pow := fun _ => 0
  amplitude_to_asf := fun _ => 0
  frequency_to_ram1 := fun _ => 0
  turns_to_ram1 := fun _ => 0
  amplitude_to_ram1 := fun _ => 0
  turns_amplitude_to_ram1 := fun _ _ => 0

/-- A concrete AD9910 instance whose frequency converter distinguishes two
inputs, for closed evaluations of the FREQ-typed DRG path. -/
def ddsF : AD9910 where
  sysclk := 1
  cpld := 0
  frequency_to_ftw := fun q => if q = 0 then 1000 else 3000
  turns_to_pow := fun _ => 0
  amplitude_to_asf := fun _ => 0
  frequency_to_ram1 := fun _ => 0
  turns_to_ram1 := fun _ => 0
  amplitude_to_ram1 := fun _ => 0
  turns_amplitude_to_ram1 := fun _ _ => 0

/-- A concrete RAMProfile object with the attributes a PHASE-destination
profile would carry (used as an argument to append). -/
def ramProfile0 : RAMProfile where
  ftw := 0
  pow := 0
  asf := 0x3fff
  dest := RAM_DEST_POW
  start_addr := 0
  end_addr := 9
  osk_enable := 1
  ram := []
  step := 1
  ram_mode := 1

/-- A concrete RAMProfile object with the attributes a POLAR-destination
profile would carry (used as an argument to append). -/
def ramProfilePolar : RAMProfile where
  ftw := 0
  pow := 0
  asf := 0x3fff
  dest := RAM_DEST_POWASF
  start_addr := 0
  end_addr := 9
  osk_enable := 0
  ram := []
  step := 1
  ram_mode := 1

/-- A concrete PHASE-typed DRG object (used as an argument to append). -/
def drgPhase0 : DRG where
  dest := 1
  rate := 1
  high := 100
  step := 1
  low := 99
  drg_type := .PHASE

/-! ## Theorems -/

/-- Events appended by a commit loop: each CPLD's profile-switch command is
scheduled at the captured timestamp now, whatever each SPI transaction's
duration and however many chips there are. -/
theorem commit_fold_events (dur : ℕ → ℤ) (p : ℕ) (cplds : List ℕ) (now : ℤ) :
    ∀ tl : Timeline,
      (cplds.foldl (fun t c => set_profile dur { t with cursor := now } c p) tl).events
        = tl.events ++ cplds.map (fun c => { cpld := c, time := now, profile := p }) := by
  induction cplds with
  | nil => intro tl; simp
  | cons c rest ih =>
    intro tl
    rw [List.foldl_cons, ih]
    simp [set_profile]

/-- C2: in each of commit_enable and commit_disable, on AD9910Manager and on
RAMProfileMap, one timestamp (the cursor read by now_mu before any command is
emitted) is shared by every CPLD's profile-switch command: the events added
to the timeline are exactly one per CPLD, all carrying that one timestamp and
the phase's profile (0 for commit_enable, 7 for commit_disable), for every
chip list, every initial timeline and every per-chip SPI duration. -/
theorem commit_shared_timestamp (dur : ℕ → ℤ) (cplds : List ℕ) (tl : Timeline) :
    (AD9910Manager.commit_enable dur cplds tl).events
        = tl.events ++ cplds.map (fun c => { cpld := c, time := tl.cursor, profile := 0 }) ∧
    (AD9910Manager.commit_disable dur cplds tl).events
        = tl.events ++ cplds.map (fun c => { cpld := c, time := tl.cursor, profile := 7 }) ∧
    (RAMProfileMap.commit_enable dur cplds tl).events
        = tl.events ++ cplds.map (fun c => { cpld := c, time := tl.cursor, profile := 0 }) ∧
    (RAMProfileMap.commit_disable dur cplds tl).events
        = tl.events ++ cplds.map (fun c => { cpld := c, time := tl.cursor, profile := 7 }) := by
  exact ⟨commit_fold_events dur 0 cplds tl.cursor tl,
    commit_fold_events dur 7 cplds tl.cursor tl,
    commit_fold_events dur 0 cplds tl.cursor tl,
    commit_fold_events dur 7 cplds tl.cursor tl⟩

/-- C8: the RAMProfile constructor hits the capacity failure (the length
assert against RAM_SIZE = 1024) exactly when the data list is longer than
1024; in particular 1025 samples fail and exactly 1024 pass the capacity
check, whatever the other arguments. -/
theorem ram_capacity_check (dds : AD9910) (store : ListStore) (dataRef : ℕ)
    (ramp_interval : ℚ) (ram_type : RAMType) (ram_mode : ℕ)
    (base_frequency base_phase base_amplitude : ℚ) :
    ((RAMProfile.init dds store dataRef ramp_interval ram_type ram_mode
        base_frequency base_phase base_amplitude).2 = .error .capacityError)
      ↔ 1024 < (store.getD dataRef []).length := by
  unfold RAMProfile.init
  dsimp only
  split
  next h => simpa using h
  next h =>
    split <;> simp <;> simpa using h

/-- Setting the freshly appended cell of a store touches only that cell. -/
theorem store_append_set {α : Type} (l : List α) (d r : α) :
    (l ++ [d]).set l.length r = l ++ [r] := by
  induction l with
  | nil => rfl
  | cons x xs ih => simp [List.set, ih]

/-- C10: RAMProfile construction never mutates the caller's data list: every
cell of the store that existed before the call (the caller's list among
them) is unchanged afterwards - the reversal acts on the freshly allocated
copy only.  Taking the first store.length cells of the resulting store
recovers the original store exactly, on every path of the constructor. -/
theorem ram_init_no_mutation (dds : AD9910) (store : ListStore) (dataRef : ℕ)
    (ramp_interval : ℚ) (ram_type : RAMType) (ram_mode : ℕ)
    (base_frequency base_phase base_amplitude : ℚ) :
    (RAMProfile.init dds store dataRef ramp_interval ram_type ram_mode
        base_frequency base_phase base_amplitude).1.take store.length = store := by
  unfold RAMProfile.init
  dsimp only
  split
  next h => simp
  next h => split <;> simp [store_append_set, List.take_left]

/-- Elementwise encoding succeeds exactly on elements of the right shape. -/
theorem encode1_of_shape (dds : AD9910) (rt : RAMType) (s : Sample)
    (h : shapeOk rt s = true) : encode1 dds rt s = some (encodeVal dds rt s) := by
  cases rt <;> cases s <;> simp_all [shapeOk, encode1, encodeVal]

/-- Encoding a list of well-shaped elements succeeds and is the elementwise
map of the converter. -/
theorem ramEncode_of_shape (dds : AD9910) (rt : RAMType) :
    ∀ l : List Sample, (∀ s ∈ l, shapeOk rt s = true) →
      ramEncode dds rt l = some (l.map (encodeVal dds rt)) := by
  intro l hl
  induction l with
  | nil => rfl
  | cons s rest ih =>
    have hs : shapeOk rt s = true := hl s (List.mem_cons_self s rest)
    have hrest := ih fun x hx => hl x (List.mem_cons_of_mem s hx)
    simp [ramEncode, encode1_of_shape dds rt s hs, hrest]

/-- C7: a RAMProfile built from n well-shaped samples (n at most 1024) stores
the encoded samples in reverse order relative to the input - entry i of the
ram list encodes input sample n - 1 - i - with start_addr = 0 and
end_addr = n - 1, so that end_addr - start_addr + 1 equals the number of
samples. -/
theorem ram_reverse_layout (dds : AD9910) (store : ListStore) (dataRef : ℕ)
    (ramp_interval : ℚ) (ram_type : RAMType) (ram_mode : ℕ)
    (base_frequency base_phase base_amplitude : ℚ) (data : List Sample)
    (hdata : store.getD dataRef [] = data)
    (hshape : ∀ s ∈ data, shapeOk ram_type s = true)
    (hlen : data.length ≤ 1024) :
    ∃ prof, (RAMProfile.init dds store dataRef ramp_interval ram_type ram_mode
        base_frequency base_phase base_amplitude).2 = .ok prof ∧
      prof.start_addr = 0 ∧
      prof.end_addr = (data.length : ℤ) - 1 ∧
      prof.end_addr - prof.start_addr + 1 = (data.length : ℤ) ∧
      prof.ram.length = data.length ∧
      ∀ i, i < data.length →
        prof.ram.getD i 0
          = encodeVal dds ram_type (data.getD (data.length - 1 - i) (.scalar 0)) := by
  have hrev : ∀ s ∈ data.reverse, shapeOk ram_type s = true := by
    intro s hs
    exact hshape s (List.mem_reverse.mp hs)
  have hE := ramEncode_of_shape dds ram_type data.reverse hrev
  unfold RAMProfile.init
  dsimp only
  rw [hdata, if_neg (by omega), hE]
  refine ⟨_, rfl, rfl, by simp, by simp, by simp, ?_⟩
  intro i hi
  have hi' : i < (data.reverse.map (encodeVal dds ram_type)).length := by simpa using hi
  have hi2 : data.length - 1 - i < data.length := by omega
  rw [List.getD_eq_getElem _ _ hi', List.getD_eq_getElem _ _ hi2]
  simp [List.getElem_reverse]

/-- C9: the phase-to-word encoding used for phase DRG limits fails exactly
when round(turns * 2^32) falls outside [0, 2^32 - 1], and otherwise returns
round(turns * 2^32) as an unsigned 32-bit word - no silent wraparound of
out-of-range phase values. -/
theorem phase_drg_word_range (turns : ℚ) :
    (turns_to_drg_args turns = .error .phaseRange ↔
      (pyRound (turns * 4294967296) < 0 ∨ 4294967295 < pyRound (turns * 4294967296))) ∧
    ∀ w, turns_to_drg_args turns = .ok w →
      w = pyRound (turns * 4294967296) ∧ 0 ≤ w ∧ w ≤ 4294967295 := by
  unfold turns_to_drg_args
  by_cases hc : pyRound (turns * 4294967296) < 0 ∨ 4294967295 < pyRound (turns * 4294967296)
  · rw [if_pos hc]
    exact ⟨iff_of_true rfl hc, fun w hw => by simp at hw⟩
  · rw [if_neg hc]
    refine ⟨iff_of_false (by simp) hc, fun w hw => ?_⟩
    cases hw
    exact ⟨rfl, by omega, by omega⟩

/-- C6 counterexample: a channel appended with no RAM and no DRG source -
all three slots literal, amplitude 0.5 - succeeds, and its osk_enable flag
is 0, not 1: DDSConfig.__init__ disables OSK whenever no RAM is present. -/
theorem ask_enable_literal_counterexample :
    ∃ cfg, AD9910Manager.append dds0 (.lit 0) (.lit 0) (.lit (1/2)) = .ok cfg ∧
      ¬ cfg.osk_enable = 1 := by
  exact ⟨_, rfl, by decide⟩

/-- C6 amended: every channel appended from three literal sources succeeds
with ask_enable (osk_enable) = 0, because OSK is disabled whenever no RAM
source is present; and appending with a RAMProfile as the amplitude source
does not produce a configuration at all - it raises AttributeError, since
append reads src.ram_type and RAMProfile objects store no such attribute. -/
theorem ask_enable_flags (dds : AD9910) (f p a : ℚ) :
    (∃ cfg, AD9910Manager.append dds (.lit f) (.lit p) (.lit a) = .ok cfg ∧
      cfg.osk_enable = 0) ∧
    ∀ r : RAMProfile, AD9910Manager.append dds (.lit f) (.lit p) (.ram r)
      = .error .attributeError := by
  exact ⟨⟨_, rfl, rfl⟩, fun r => rfl⟩

/-- C5 (code_bug evaluation): assigning the same POLAR RAMProfile object to
both the phase and amplitude slots - the combination the aggregation code's
POLAR duplication branch was written to accept - raises AttributeError at
the first validation read of src.ram_type, because RAMProfile.__init__
never stores a ram_type attribute; the POLAR acceptance path is dead code. -/
theorem polar_append_attribute_error :
    AD9910Manager.append dds0 (.lit 0) (.ram ramProfilePolar) (.ram ramProfilePolar)
      = .error .attributeError := by
  rfl

/-- C4 counterexample: a call whose frequency slot holds a PHASE-typed DRG
(failing that slot's validation) and whose phase slot holds a RAMProfile
raises the DRG-destination ConfigError, not AttributeError: the claim that
every RAMProfile-carrying call raises AttributeError is false. -/
theorem append_ram_counterexample :
    AD9910Manager.append dds0 (.drg drgPhase0) (.ram ramProfile0) (.lit 1)
        = .error .invalidDRGDest ∧
      (AppendError.invalidDRGDest ≠ AppendError.attributeError) := by
  exact ⟨rfl, by decide⟩

/-- C4 amended: a call to append holding a RAMProfile in some slot raises
AttributeError - append reads src.ram_type during validation and RAMProfile
objects store no such attribute - unless a slot before the first RAMProfile
slot holds a DRG whose type fails that slot's validation, in which case the
DRG-destination ConfigError fires first; in either case the call never
succeeds, so no RAM-backed channel configuration can be appended. -/
theorem append_ram_attribute_error (dds : AD9910) (f p a : Src)
    (hram : isRamSrc f = true ∨ isRamSrc p = true ∨ isRamSrc a = true) :
    (AD9910Manager.append dds f p a = .error .attributeError ↔
      mismatchedDRGBeforeRAM f p = false) ∧
    (mismatchedDRGBeforeRAM f p = true →
      AD9910Manager.append dds f p a = .error .invalidDRGDest) ∧
    ∀ cfg, AD9910Manager.append dds f p a ≠ .ok cfg := by
  cases f <;> cases p <;> cases a <;>
    simp_all [AD9910Manager.append, validate_src, mismatchedDRGBeforeRAM,
      drgMismatch, isRamSrc, isDrgSrc, drg_types_dict, DDSConfig.init,
      firstSome, drgOf, ramOf, litOrDefault] <;>
    split_ifs <;> simp_all

/-- C4 witness: the amended statement at a concrete input - a literal
frequency, the PHASE-destination RAMProfile in the phase slot, a literal
amplitude. -/
theorem append_ram_attribute_error_witness :
    (AD9910Manager.append dds0 (.lit 0) (.ram ramProfile0) (.lit 1)
        = .error .attributeError ↔
      mismatchedDRGBeforeRAM (.lit 0) (.ram ramProfile0) = false) ∧
    (mismatchedDRGBeforeRAM (.lit 0) (.ram ramProfile0) = true →
      AD9910Manager.append dds0 (.lit 0) (.ram ramProfile0) (.lit 1)
        = .error .invalidDRGDest) ∧
    ∀ cfg, AD9910Manager.append dds0 (.lit 0) (.ram ramProfile0) (.lit 1)
      ≠ .ok cfg :=
  append_ram_attribute_error dds0 (.lit 0) (.ram ramProfile0) (.lit 1)
    (Or.inr (Or.inl rfl))

/-- C7 witness: the layout statement at a concrete three-sample frequency
profile. -/
theorem ram_reverse_layout_witness :
    ∃ prof, (RAMProfile.init dds0 [[Sample.scalar 0, Sample.scalar 1, Sample.scalar 1]]
        0 4 .FREQ 1 0 0 1).2 = .ok prof ∧
      prof.start_addr = 0 ∧
      prof.end_addr = (([Sample.scalar 0, Sample.scalar 1, Sample.scalar 1].length : ℕ) : ℤ) - 1 ∧
      prof.end_addr - prof.start_addr + 1
        = (([Sample.scalar 0, Sample.scalar 1, Sample.scalar 1].length : ℕ) : ℤ) ∧
      prof.ram.length = [Sample.scalar 0, Sample.scalar 1, Sample.scalar 1].length ∧
      ∀ i, i < [Sample.scalar 0, Sample.scalar 1, Sample.scalar 1].length →
        prof.ram.getD i 0
          = encodeVal dds0 .FREQ
              ([Sample.scalar 0, Sample.scalar 1, Sample.scalar 1].getD
                ([Sample.scalar 0, Sample.scalar 1, Sample.scalar 1].length - 1 - i)
                (.scalar 0)) :=
  ram_reverse_layout dds0 [[Sample.scalar 0, Sample.scalar 1, Sample.scalar 1]] 0 4
    .FREQ 1 0 0 1 [Sample.scalar 0, Sample.scalar 1, Sample.scalar 1] rfl
    (by decide) (by decide)

/-- toInt32 reinterpretation does not change the uint32 view. -/
theorem toU32_toInt32 (z : ℤ) : toU32 (toInt32 z) = toU32 z := by
  unfold toU32 toInt32
  omega

/-- A value already inside [0, 2^32) is its own uint32 view. -/
theorem toU32_of_range (z : ℤ) (h1 : 0 ≤ z) (h2 : z < 4294967296) : toU32 z = z :=
  Int.emod_eq_of_lt h1 h2

/-- Every machine word produced by the DRG start/end encoding lies in
[0, 2^32). -/
theorem drgEncode_range (dds : AD9910) (t : DRGType) (v : ℚ) (w : ℤ)
    (hw : drgEncode dds t v = .ok w) : 0 ≤ w ∧ w < 4294967296 := by
  cases t
  case FREQ =>
    simp only [drgEncode, Except.ok.injEq] at hw
    subst hw
    exact ⟨Int.emod_nonneg _ (by norm_num), Int.emod_lt_of_pos _ (by norm_num)⟩
  case PHASE =>
    simp only [drgEncode] at hw
    unfold turns_to_drg_args at hw
    dsimp only at hw
    split at hw
    · simp at hw
    · next hc =>
      cases hw
      omega
  case AMP =>
    simp only [drgEncode] at hw
    unfold amplitude_to_drg_regs at hw
    split at hw
    · simp at hw
    · next hc =>
      push_neg at hc
      cases hw
      constructor
      · exact Int.floor_nonneg.mpr (mul_nonneg hc.1 (by norm_num))
      · have hle : v * 4294967295 ≤ 4294967295 := by nlinarith [hc.2]
        have := Int.floor_le_floor hle
        simp at this
        omega

/-- C3 amended: for every DRG constructed with num_of_steps = n >= 2 given
(and step_gap absent), writing s and h for the machine words start and end
encode to: the stored fields satisfy low < high as unsigned 32-bit values,
step = floor((h - s) / (n - 1)), and low + step = s, all read through the
uint32 view of the int32-reinterpreted stored registers. -/
theorem drg_num_steps_fields (dds : AD9910) (start finish ramp_interval : ℚ)
    (drg_type : DRGType) (n : ℤ) (dwell_high : Bool) (r : DRG) (s h : ℤ)
    (hs : drgEncode dds drg_type start = .ok s)
    (hh : drgEncode dds drg_type finish = .ok h)
    (hn : 2 ≤ n)
    (hok : DRG.init dds start finish ramp_interval drg_type (some n) none dwell_high
      = .ok r) :
    toU32 r.low < toU32 r.high ∧
    toU32 r.step = (h - s) / (n - 1) ∧
    toU32 r.low + toU32 r.step = s := by
  obtain ⟨hs0, hs1⟩ := drgEncode_range dds drg_type start s hs
  obtain ⟨hh0, hh1⟩ := drgEncode_range dds drg_type finish h hh
  unfold DRG.init at hok
  rw [if_neg (by simp)] at hok
  rw [hs, hh] at hok
  simp only [drgStepGapOpt] at hok
  have hn1 : ¬ (n = 1) := by omega
  have hn2 : (1 : ℤ) < n := by omega
  simp only [if_neg hn1, if_pos hn2] at hok
  split at hok
  · exact absurd hok (by simp)
  next hlt =>
    simp only [if_true] at hok
    by_cases hdw : dwell_high = true ↔ toU32 (h + (h - s) / (n - 1)) < 4294967296
    · rw [if_neg (not_not_intro hdw)] at hok
      by_cases hstart : s < (h - s) / (n - 1)
      · rw [if_pos hstart] at hok
        exact absurd hok (by simp)
      · rw [if_neg hstart] at hok
        simp only [Except.ok.injEq] at hok
        subst hok
        have hst0 : 0 ≤ (h - s) / (n - 1) := Int.ediv_nonneg (by omega) (by omega)
        have hstle : (h - s) / (n - 1) ≤ s := le_of_not_lt hstart
        dsimp only
        rw [toU32_toInt32, toU32_toInt32, toU32_toInt32,
          toU32_of_range _ (by omega) (by omega),
          toU32_of_range _ (by omega) (by omega),
          toU32_of_range _ (by omega) (by omega)]
        exact ⟨by omega, rfl, by omega⟩
    · rw [if_pos hdw] at hok
      exact absurd hok (by simp)

/-- C3 witness: the amended field relations at the concrete amplitude ramp
start = 3/4, end = 1, num_of_steps = 3 (machine words 3221225471 and
4294967295, step 536870912). -/
theorem drg_num_steps_fields_witness :
    toU32 (-1610612737) < toU32 (-1) ∧
    toU32 536870912 = ((4294967295 : ℤ) - 3221225471) / (3 - 1) ∧
    toU32 (-1610612737) + toU32 536870912 = 3221225471 :=
  drg_num_steps_fields dds0 (3/4) 1 4 .AMP 3 true
    { dest := 2, rate := 1, high := -1, step := 536870912,
      low := -1610612737, drg_type := .AMP }
    3221225471 4294967295
    (by norm_num [drgEncode, amplitude_to_drg_regs])
    (by norm_num [drgEncode, amplitude_to_drg_regs])
    (by norm_num)
    (by norm_num [DRG.init, drgEncode, amplitude_to_drg_regs, drgStepGapOpt,
      DRGType.value, pyInt, toU32, toInt32, dds0])

/-- C3 counterexample: with num_of_steps = 0 the constructor still succeeds
(num_of_steps - 1 = -1 promotes the division to exact int64 arithmetic and
every later check passes with dwell_high = True), but the resulting low
equals high in the unsigned 32-bit view: the claimed low < high fails.
Concrete input: amplitude ramp start = 1/2 (word 2147483647), end = 1
(word 4294967295), num_of_steps = 0; the stored step is -2147483648 and
low = high = -1 (unsigned 4294967295 both). -/
theorem drg_num_steps_counterexample :
    ∃ r, DRG.init dds0 (1/2) 1 4 .AMP (some 0) none true = .ok r ∧
      toU32 r.low = toU32 r.high ∧ ¬ toU32 r.low < toU32 r.high := by
  have hf : Int.fdiv 2147483648 (-1) = -2147483648 := by decide
  refine ⟨{ dest := 2, rate := 1, high := -1, step := -2147483648,
            low := -1, drg_type := .AMP }, ?_, by norm_num, by norm_num⟩
  norm_num [DRG.init, drgEncode, amplitude_to_drg_regs, drgStepGapOpt,
    DRGType.value, pyInt, toU32, toInt32, dds0, hf]

/-- C1 (code_bug evaluation): at the concrete amplitude ramp start = 3/4,
end = 1, num_of_steps = 2, the exact sum high + step = 4294967295 +
1073741824 exceeds 2^32, so per the documented dwell-high contract the
constructor must accept dwell_high = False and reject dwell_high = True;
the code does the opposite - the numpy uint32 addition in the check wraps
before the comparison against 2^32, making the check demand dwell_high =
True always. -/
theorem drg_dwell_check_code_bug :
    DRG.init dds0 (3/4) 1 4 .AMP (some 2) none false = .error .dwellMismatch ∧
    DRG.init dds0 (3/4) 1 4 .AMP (some 2) none true
      = .ok { dest := 2, rate := 1, high := -1, step := 1073741824,
              low := 2147483647, drg_type := .AMP } ∧
    (4294967296 : ℤ) ≤ toU32 (-1) + toU32 1073741824 := by
  refine ⟨?_, ?_, by norm_num [toU32]⟩ <;>
    norm_num [DRG.init, drgEncode, amplitude_to_drg_regs, drgStepGapOpt,
      DRGType.value, pyInt, toU32, toInt32, dds0]
